import Mathlib

/-!
Shallow embedding of `src/main.py` (a FastAPI tutorial application) and
verification of its specification claims.

The Python source declares pydantic models (`HairColor`, `Location`,
`PersonBase`, `Person`, `PersonOut`, `LoginOut`) and eight route handlers.
Python's unbounded `int` is modelled as `Int`; pydantic field constraints
become decidable validity predicates; `dict` values become the `Value`
inductive; `dict.update` becomes `dictUpdate` with Python's semantics
(existing keys overwritten in place, new keys appended in order); the
process-wide globals (the list `persons`) become an explicit `AppState`
threaded through every handler.
-/

namespace FastAPIHelloWorld

/-- `class HairColor(Enum)` with members black/blonde/brown/red/white
(src/main.py lines 21-26). -/
inductive HairColor where
  | black
  | blonde
  | brown
  | red
  | white
deriving DecidableEq, Repr

/-- The string value of each `HairColor` enum member, as declared in the
Python source (`black = 'black'`, ...). -/
def HairColor.value : HairColor → String
  | .black => "black"
  | .blonde => "blonde"
  | .brown => "brown"
  | .red => "red"
  | .white => "white"

/-- Enum coercion performed by pydantic when a raw string is supplied for a
`HairColor`-typed field: the string must equal the value of one of the five
members. -/
def HairColor.ofString (s : String) : Option HairColor :=
  if s = "black" then some .black
  else if s = "blonde" then some .blonde
  else if s = "brown" then some .brown
  else if s = "red" then some .red
  else if s = "white" then some .white
  else none

/-- `class Location(BaseModel)` (src/main.py lines 28-46): three required
strings. -/
structure Location where
  city : String
  state : String
  country : String
deriving DecidableEq, Repr

/-- The pydantic field constraints on `Location`: city 1-58 chars,
state 1-50 chars, country 1-21 chars. -/
def Location.valid (l : Location) : Bool :=
  1 ≤ l.city.length && l.city.length ≤ 58 &&
  1 ≤ l.state.length && l.state.length ≤ 50 &&
  1 ≤ l.country.length && l.country.length ≤ 21

/-- `class PersonBase(BaseModel)` (src/main.py lines 48-72): required
first_name/last_name/age, optional hair_color and is_married defaulting to
`None`. -/
structure PersonBase where
  first_name : String
  last_name : String
  age : Int
  hair_color : Option HairColor := none
  is_married : Option Bool := none
deriving DecidableEq, Repr

/-- The pydantic field constraints on `PersonBase`: names 1-50 chars,
age with `gt=0, le=115`. -/
def PersonBase.valid (p : PersonBase) : Bool :=
  1 ≤ p.first_name.length && p.first_name.length ≤ 50 &&
  1 ≤ p.last_name.length && p.last_name.length ≤ 50 &&
  0 < p.age && p.age ≤ 115

/-- `class Person(PersonBase)` (src/main.py lines 74-75): adds a required
password with `min_length=8`. -/
structure Person extends PersonBase where
  password : String
deriving DecidableEq, Repr

/-- `Person` validity: the base constraints plus `min_length=8` on the
password. -/
def Person.valid (p : Person) : Bool :=
  p.toPersonBase.valid && 8 ≤ p.password.length

/-- `class PersonOut(PersonBase): pass` (src/main.py lines 89-90): the
output projection, no password field. -/
structure PersonOut extends PersonBase where
deriving DecidableEq, Repr

/-- `class LoginOut(BaseModel)` (src/main.py lines 92-94): username with
`max_length=20` and a message defaulting to `'Login Successful'`. -/
structure LoginOut where
  username : String
  message : String := "Login Successful"
deriving DecidableEq, Repr

/-- Pydantic construction of `LoginOut(username=...)` with the default
message: checks `max_length=20` on the username, raising a validation
error otherwise. -/
def LoginOut.construct (username : String) : Except String LoginOut :=
  if username.length ≤ 20 then .ok { username := username }
  else .error "ensure this value has at most 20 characters"

/-- JSON-like values appearing in the dictionaries the handlers build.
`hair` holds an enum member (pydantic `.dict()` keeps the enum instance);
`null` is Python `None`. -/
inductive Value where
  | str (s : String)
  | int (n : Int)
  | bool (b : Bool)
  | hair (h : HairColor)
  | null
deriving DecidableEq, Repr

/-- Pydantic serialization of an optional `HairColor` field. -/
def Value.ofOptHair : Option HairColor → Value
  | none => .null
  | some h => .hair h

/-- Pydantic serialization of an optional `bool` field. -/
def Value.ofOptBool : Option Bool → Value
  | none => .null
  | some b => .bool b

/-- `PersonBase.dict()`: the pydantic dictionary of a `PersonBase`, keys in
field-declaration order. -/
def PersonBase.dict (p : PersonBase) : List (String × Value) :=
  [("first_name", .str p.first_name),
   ("last_name", .str p.last_name),
   ("age", .int p.age),
   ("hair_color", Value.ofOptHair p.hair_color),
   ("is_married", Value.ofOptBool p.is_married)]

/-- `Person.dict()`: the base fields followed by the password (pydantic
orders inherited fields first). -/
def Person.dict (p : Person) : List (String × Value) :=
  p.toPersonBase.dict ++ [("password", .str p.password)]

/-- `PersonOut.dict()`: exactly the base fields, no password key. -/
def PersonOut.dict (p : PersonOut) : List (String × Value) :=
  p.toPersonBase.dict

/-- `Location.dict()`: the three location fields in declaration order. -/
def Location.dict (l : Location) : List (String × Value) :=
  [("city", .str l.city), ("state", .str l.state), ("country", .str l.country)]

/-- Python `d.update(u)`: keys already in `d` are overwritten in place with
the value from `u`; keys of `u` not in `d` are appended in `u`'s order. -/
def dictUpdate (d u : List (String × Value)) : List (String × Value) :=
  (d.map fun kv =>
    match u.find? (fun kv2 => kv2.1 == kv.1) with
    | some kv2 => (kv.1, kv2.2)
    | none => kv) ++
  u.filter fun kv2 => !(d.any fun kv => kv.1 == kv2.1)

/-- Outcome of a route once the framework has bound and validated the
declared parameters: either a success response with its status code, or an
HTTP error (validation failure or `HTTPException`) with its status code and
detail message. -/
inductive RouteResult (α : Type) where
  | success (statusCode : Nat) (body : α)
  | failure (statusCode : Nat) (detail : String)
deriving DecidableEq, Repr

/-- The process-wide mutable globals of the module: the only one is the
list `persons = [1, 2, 3, 4, 5]` (src/main.py line 178). -/
structure AppState where
  persons : List Int
deriving DecidableEq, Repr

/-- The module-level constant `persons = [1, 2, 3, 4, 5]`. -/
def persons : List Int := [1, 2, 3, 4, 5]

/-- The state of the globals as established at module import and, by the
claims below, after every request. -/
def initState : AppState := { persons := persons }

/-- `home()` (src/main.py lines 97-111): returns the fixed greeting; the
globals are threaded through untouched. -/
def home (s : AppState) : List (String × String) × AppState :=
  ([("Hello", "World")], s)

/-- `create_person(person)` (src/main.py lines 115-135): the handler
returns the person unchanged; the framework serializes it against
`response_model=PersonOut`, which keeps exactly the `PersonOut` fields. -/
def create_person (person : Person) (s : AppState) : PersonOut × AppState :=
  ({ toPersonBase := person.toPersonBase }, s)

/-- `show_person(name, age)` — the query-parameter variant (src/main.py
lines 139-174): returns the one-entry dictionary `\x7bname: age\x7d`, whose
key may be Python `None` when the optional name is absent. -/
def show_person_query (name : Option String) (age : Int) (s : AppState) :
    (Option String × Int) × AppState :=
  ((name, age), s)

/-- `show_person(person_id)` — the path-parameter variant (src/main.py
lines 180-214): raises a 404 `HTTPException` with detail
`'This person does not exists'` when `person_id not in persons`, otherwise
returns `\x7bperson_id: 'It exists!'\x7d` with the declared status 202. -/
def show_person_by_id (person_id : Int) (s : AppState) :
    RouteResult (Int × String) × AppState :=
  if person_id ∉ s.persons then
    (.failure 404 "This person does not exists", s)
  else
    (.success 202 (person_id, "It exists!"), s)

/-- The `/person/detail/\x7bperson_id\x7d` route: the framework first checks
the declared path constraint `gt=0`, answering a 422 validation error when
it fails, and only then runs the handler. -/
def person_detail_route (person_id : Int) (s : AppState) :
    RouteResult (Int × String) × AppState :=
  if person_id ≤ 0 then
    (.failure 422 "ensure this value is greater than 0", s)
  else
    show_person_by_id person_id s

/-- `update_person(person_id, person, Location)` (src/main.py lines
224-254): `results = person.dict(); results.update(Location.dict());
return results`. The route declares no `response_model`, so the merged
dictionary is the response body as-is. -/
def update_person (person_id : Int) (person : Person) (location : Location)
    (s : AppState) : List (String × Value) × AppState :=
  let _ := person_id
  (dictUpdate person.dict location.dict, s)

/-- `login(username, password)` (src/main.py lines 265-280): returns
`LoginOut(username=username)`; the password is bound from the form but
never inspected. Construction of `LoginOut` validates `max_length=20`. -/
def login (username password : String) (s : AppState) :
    Except String LoginOut × AppState :=
  let _ := password
  (LoginOut.construct username, s)

/-- The `/login` route: both form fields are required (`Form(...)`), so an
absent field is a 422 before the handler runs; a handler-side `LoginOut`
validation failure surfaces as a 500; otherwise the declared status 200. -/
def login_route (username password : Option String) (s : AppState) :
    RouteResult LoginOut × AppState :=
  match username, password with
  | none, _ => (.failure 422 "field required", s)
  | _, none => (.failure 422 "field required", s)
  | some u, some p =>
    let r := login u p s
    (match r.1 with
     | .ok out => .success 200 out
     | .error e => .failure 500 e,
     r.2)

/-- `contact(...)` (src/main.py lines 284-326): returns the raw
`user_agent` header value; the form fields and cookie are validated by the
framework but unused by the body. -/
def contact (first_name last_name email message : String)
    (user_agent : Option String) (ads : Option String) (s : AppState) :
    Option String × AppState :=
  let _ := (first_name, last_name, email, message, ads)
  (user_agent, s)

/-- `UploadFile`: the filename, content type and raw bytes of the uploaded
file; `image.file.read()` yields `content`, so the byte count is
`content.length`. -/
structure UploadFile where
  filename : String
  content_type : String
  content : List Nat
deriving DecidableEq, Repr

/-- Python 3 banker's rounding of a rational to the nearest integer: round
half to even. On the reduced fraction num/den (den positive), f is the
floor and r the nonnegative remainder, so the fractional part r/den is
compared with one half by comparing 2r with den. -/
def roundHalfEven (q : ℚ) : ℤ :=
  let f : ℤ := q.num.fdiv q.den
  let r : ℤ := q.num - f * q.den
  if 2 * r < (q.den : ℤ) then f
  else if (q.den : ℤ) < 2 * r then f + 1
  else if f % 2 = 0 then f else f + 1

/-- Python `round(x, ndigits=2)`: scale by 100, round half to even, scale
back. -/
def pythonRound2 (q : ℚ) : ℚ :=
  (roundHalfEven (q * 100) : ℚ) / 100

/-- The response body of `post_image`: the JSON object with keys
`Filename`, `Format`, `Size(kb)`. -/
structure ImageResponse where
  filename_key : String
  format_key : String
  size_kb : ℚ
deriving DecidableEq, Repr

/-- `post_image(image)` (src/main.py lines 335-351): returns the filename,
the content type, and `round(len(image.file.read())/1024, ndigits=2)`
under the key `Size(kb)`. -/
def post_image (image : UploadFile) (s : AppState) :
    ImageResponse × AppState :=
  ({ filename_key := image.filename,
     format_key := image.content_type,
     size_kb := pythonRound2 ((image.content.length : ℚ) / 1024) }, s)

/-- Binding of the optional `hair_color` body field: an absent field takes
the declared default `None`; a present string must coerce into the
`HairColor` enum, otherwise pydantic reports a validation error. -/
def parse_hair_color : Option String → Except String (Option HairColor)
  | none => .ok none
  | some raw =>
    match HairColor.ofString raw with
    | some h => .ok (some h)
    | none => .error "value is not a valid enumeration member"

/-- C1 counterexample: the claim says update_person's merged mapping omits
the password, but at the concrete request with person
first_name Juan, last_name Di Pasquo, age 21, password 12345678 and
location La Plata / Buenos Aires / Argentina, the merged mapping does
contain the password key. -/
theorem claim_C1_counterexample :
    ((update_person 123
        { first_name := "Juan", last_name := "Di Pasquo", age := 21,
          password := "12345678" }
        { city := "La Plata", state := "Buenos Aires", country := "Argentina" }
        initState).1).lookup "password" ≠ none := by
  decide

/-- C1 amended: create_person's response, serialized through
response_model PersonOut, never contains a password key; but
update_person's merged mapping (its route declares no response_model)
always contains the password key, carrying the request's password. -/
theorem claim_C1_amended :
    (∀ (p : Person) (s : AppState),
      (PersonOut.dict (create_person p s).1).lookup "password" = none) ∧
    (∀ (person_id : Int) (p : Person) (l : Location) (s : AppState),
      ((update_person person_id p l s).1).lookup "password" =
        some (.str p.password)) :=
  ⟨fun _ _ => rfl, fun _ _ _ _ => rfl⟩

/-- C2: for every positive person_id, the detail-by-id route either finds
it in the fixed membership list and answers 202 with the one-entry mapping
person_id to the string It exists!, or does not find it and answers 404
with the fixed detail message — and these are the only two outcomes. -/
theorem claim_C2 (person_id : Int) (h : 0 < person_id) :
    (person_id ∈ persons ∧
      (person_detail_route person_id initState).1 =
        .success 202 (person_id, "It exists!")) ∨
    (person_id ∉ persons ∧
      (person_detail_route person_id initState).1 =
        .failure 404 "This person does not exists") := by
  have hle : ¬ person_id ≤ 0 := by omega
  by_cases hmem : person_id ∈ persons
  · exact Or.inl ⟨hmem, by
      simp [person_detail_route, show_person_by_id, initState, hle, hmem]⟩
  · exact Or.inr ⟨hmem, by
      simp [person_detail_route, show_person_by_id, initState, hle, hmem]⟩

/-- C2 witness: the route evaluated at the concrete person_id 3. -/
theorem claim_C2_witness :
    ((3 : Int) ∈ persons ∧
      (person_detail_route 3 initState).1 = .success 202 (3, "It exists!")) ∨
    ((3 : Int) ∉ persons ∧
      (person_detail_route 3 initState).1 =
        .failure 404 "This person does not exists") :=
  claim_C2 3 (by decide)

/-- C3: with every other field valid, construction of a PersonBase — and
of a Person — succeeds exactly when the age a satisfies 0 < a ≤ 115. -/
theorem claim_C3 (fn ln : String) (a : Int) (hc : Option HairColor)
    (im : Option Bool) (pw : String)
    (hfn1 : 1 ≤ fn.length) (hfn2 : fn.length ≤ 50)
    (hln1 : 1 ≤ ln.length) (hln2 : ln.length ≤ 50)
    (hpw : 8 ≤ pw.length) :
    (PersonBase.valid ⟨fn, ln, a, hc, im⟩ = true ↔ (0 < a ∧ a ≤ 115)) ∧
    (Person.valid ⟨⟨fn, ln, a, hc, im⟩, pw⟩ = true ↔ (0 < a ∧ a ≤ 115)) := by
  simp [PersonBase.valid, Person.valid, hfn1, hfn2, hln1, hln2, hpw]

/-- C3 witness: the age bound instantiated at the concrete fields
Juan / Di Pasquo with an 8-character password. -/
theorem claim_C3_witness :
    (∀ a : Int, PersonBase.valid ⟨"Juan", "Di Pasquo", a, none, none⟩ = true ↔
      (0 < a ∧ a ≤ 115)) ∧
    (∀ a : Int,
      Person.valid ⟨⟨"Juan", "Di Pasquo", a, none, none⟩, "12345678"⟩ = true ↔
      (0 < a ∧ a ≤ 115)) :=
  ⟨fun a => (claim_C3 "Juan" "Di Pasquo" a none none "12345678"
      (by decide) (by decide) (by decide) (by decide) (by decide)).1,
   fun a => (claim_C3 "Juan" "Di Pasquo" a none none "12345678"
      (by decide) (by decide) (by decide) (by decide) (by decide)).2⟩

/-- C4: for every valid Person payload, the body returned by create_person
agrees with the input on first_name, last_name, age, hair_color and
is_married. -/
theorem claim_C4 (p : Person) (s : AppState) (h : Person.valid p = true) :
    (create_person p s).1.first_name = p.first_name ∧
    (create_person p s).1.last_name = p.last_name ∧
    (create_person p s).1.age = p.age ∧
    (create_person p s).1.hair_color = p.hair_color ∧
    (create_person p s).1.is_married = p.is_married :=
  ⟨rfl, rfl, rfl, rfl, rfl⟩

/-- C4 witness: create_person evaluated at a concrete valid Person. -/
theorem claim_C4_witness :
    (create_person
        { first_name := "Juan", last_name := "Di Pasquo", age := 21,
          password := "12345678" } initState).1.first_name = "Juan" ∧
    (create_person
        { first_name := "Juan", last_name := "Di Pasquo", age := 21,
          password := "12345678" } initState).1.last_name = "Di Pasquo" ∧
    (create_person
        { first_name := "Juan", last_name := "Di Pasquo", age := 21,
          password := "12345678" } initState).1.age = 21 ∧
    (create_person
        { first_name := "Juan", last_name := "Di Pasquo", age := 21,
          password := "12345678" } initState).1.hair_color = none ∧
    (create_person
        { first_name := "Juan", last_name := "Di Pasquo", age := 21,
          password := "12345678" } initState).1.is_married = none :=
  claim_C4
    { first_name := "Juan", last_name := "Di Pasquo", age := 21,
      password := "12345678" } initState (by decide)

/-- C5: update_person with person Juan / Di Pasquo / 21 (any valid
password) and location La Plata / Buenos Aires / Argentina returns one
mapping containing all six keys with exactly those values. -/
theorem claim_C5 (person_id : Int) (pw : String) (s : AppState)
    (hpw : 8 ≤ pw.length) :
    ((update_person person_id
        { first_name := "Juan", last_name := "Di Pasquo", age := 21,
          password := pw }
        { city := "La Plata", state := "Buenos Aires", country := "Argentina" }
        s).1).lookup "first_name" = some (.str "Juan") ∧
    ((update_person person_id
        { first_name := "Juan", last_name := "Di Pasquo", age := 21,
          password := pw }
        { city := "La Plata", state := "Buenos Aires", country := "Argentina" }
        s).1).lookup "last_name" = some (.str "Di Pasquo") ∧
    ((update_person person_id
        { first_name := "Juan", last_name := "Di Pasquo", age := 21,
          password := pw }
        { city := "La Plata", state := "Buenos Aires", country := "Argentina" }
        s).1).lookup "age" = some (.int 21) ∧
    ((update_person person_id
        { first_name := "Juan", last_name := "Di Pasquo", age := 21,
          password := pw }
        { city := "La Plata", state := "Buenos Aires", country := "Argentina" }
        s).1).lookup "city" = some (.str "La Plata") ∧
    ((update_person person_id
        { first_name := "Juan", last_name := "Di Pasquo", age := 21,
          password := pw }
        { city := "La Plata", state := "Buenos Aires", country := "Argentina" }
        s).1).lookup "state" = some (.str "Buenos Aires") ∧
    ((update_person person_id
        { first_name := "Juan", last_name := "Di Pasquo", age := 21,
          password := pw }
        { city := "La Plata", state := "Buenos Aires", country := "Argentina" }
        s).1).lookup "country" = some (.str "Argentina") :=
  ⟨rfl, rfl, rfl, rfl, rfl, rfl⟩

/-- C5 witness: the six lookups at person_id 123 and password 12345678. -/
theorem claim_C5_witness :
    ((update_person 123
        { first_name := "Juan", last_name := "Di Pasquo", age := 21,
          password := "12345678" }
        { city := "La Plata", state := "Buenos Aires", country := "Argentina" }
        initState).1).lookup "first_name" = some (.str "Juan") ∧
    ((update_person 123
        { first_name := "Juan", last_name := "Di Pasquo", age := 21,
          password := "12345678" }
        { city := "La Plata", state := "Buenos Aires", country := "Argentina" }
        initState).1).lookup "last_name" = some (.str "Di Pasquo") ∧
    ((update_person 123
        { first_name := "Juan", last_name := "Di Pasquo", age := 21,
          password := "12345678" }
        { city := "La Plata", state := "Buenos Aires", country := "Argentina" }
        initState).1).lookup "age" = some (.int 21) ∧
    ((update_person 123
        { first_name := "Juan", last_name := "Di Pasquo", age := 21,
          password := "12345678" }
        { city := "La Plata", state := "Buenos Aires", country := "Argentina" }
        initState).1).lookup "city" = some (.str "La Plata") ∧
    ((update_person 123
        { first_name := "Juan", last_name := "Di Pasquo", age := 21,
          password := "12345678" }
        { city := "La Plata", state := "Buenos Aires", country := "Argentina" }
        initState).1).lookup "state" = some (.str "Buenos Aires") ∧
    ((update_person 123
        { first_name := "Juan", last_name := "Di Pasquo", age := 21,
          password := "12345678" }
        { city := "La Plata", state := "Buenos Aires", country := "Argentina" }
        initState).1).lookup "country" = some (.str "Argentina") :=
  claim_C5 123 "12345678" initState (by decide)

/-- C6: for username Miguel2021 and every password of length at least 8,
login succeeds with status 200 and returns exactly the username together
with the fixed default message Login Successful. -/
theorem claim_C6 (pw : String) (s : AppState) (hpw : 8 ≤ pw.length) :
    (login_route (some "Miguel2021") (some pw) s).1 =
      .success 200 { username := "Miguel2021", message := "Login Successful" } :=
  rfl

/-- C6 witness: login evaluated at the concrete password password1. -/
theorem claim_C6_witness :
    (login_route (some "Miguel2021") (some "password1") initState).1 =
      .success 200 { username := "Miguel2021", message := "Login Successful" } :=
  claim_C6 "password1" initState (by decide)

/-- C7: hair_color binding accepts a supplied string exactly when it is
one of the five enumerated literals; in particular purple is rejected and
brown accepted; an absent field takes the default None. -/
theorem claim_C7 :
    (∀ raw : String, (parse_hair_color (some raw)).isOk = true ↔
      (raw = "black" ∨ raw = "blonde" ∨ raw = "brown" ∨ raw = "red" ∨
        raw = "white")) ∧
    (parse_hair_color (some "purple")).isOk = false ∧
    parse_hair_color (some "brown") = .ok (some .brown) ∧
    parse_hair_color none = .ok none := by
  have hofs : ∀ raw : String, (HairColor.ofString raw).isSome = true ↔
      (raw = "black" ∨ raw = "blonde" ∨ raw = "brown" ∨ raw = "red" ∨
        raw = "white") := by
    intro raw
    unfold HairColor.ofString
    split_ifs with h1 h2 h3 h4 h5 <;> simp_all
  have hok : ∀ raw : String,
      (parse_hair_color (some raw)).isOk = (HairColor.ofString raw).isSome := by
    intro raw
    cases h : HairColor.ofString raw <;>
      simp [parse_hair_color, h, Except.isOk, Except.toBool]
  exact ⟨fun raw => by rw [hok raw]; exact hofs raw, rfl, rfl, rfl⟩

/-- C8: post_image reports the uploaded file's size under the Size(kb) key
as the byte count divided by 1024 rounded to two decimals; in particular a
file of exactly 2048 bytes yields the value 2. -/
theorem claim_C8 (image : UploadFile) (s : AppState) :
    (post_image image s).1.size_kb =
      pythonRound2 ((image.content.length : ℚ) / 1024) ∧
    (image.content.length = 2048 → (post_image image s).1.size_kb = 2) := by
  refine ⟨rfl, fun h => ?_⟩
  have h2 : ((image.content.length : ℚ)) / 1024 = 2 := by
    rw [h]; norm_num
  show pythonRound2 ((image.content.length : ℚ) / 1024) = 2
  rw [h2]
  unfold pythonRound2 roundHalfEven
  norm_num [Rat.num_ofNat, Rat.den_ofNat]

/-- C8 witness: post_image evaluated at a concrete 2048-byte upload. -/
theorem claim_C8_witness :
    (post_image
        { filename := "photo.png", content_type := "image/png",
          content := List.replicate 2048 0 } initState).1.size_kb =
      pythonRound2
        (((List.replicate 2048 (0 : Nat)).length : ℚ) / 1024) ∧
    (post_image
        { filename := "photo.png", content_type := "image/png",
          content := List.replicate 2048 0 } initState).1.size_kb = 2 :=
  ⟨(claim_C8
      { filename := "photo.png", content_type := "image/png",
        content := List.replicate 2048 0 } initState).1,
   (claim_C8
      { filename := "photo.png", content_type := "image/png",
        content := List.replicate 2048 0 } initState).2
     (by show (List.replicate 2048 (0 : Nat)).length = 2048
         rw [List.length_replicate])⟩

/-- C9: no handler writes the process-wide state: for every request to
every route, the globals (in particular the membership list persons)
after the handler equal the globals before it, and their initial value is
the fixed list one to five. -/
theorem claim_C9 :
    initState.persons = [1, 2, 3, 4, 5] ∧
    ∀ s : AppState,
      (home s).2 = s ∧
      (∀ p, (create_person p s).2 = s) ∧
      (∀ n a, (show_person_query n a s).2 = s) ∧
      (∀ pid, (show_person_by_id pid s).2 = s) ∧
      (∀ pid, (person_detail_route pid s).2 = s) ∧
      (∀ pid p l, (update_person pid p l s).2 = s) ∧
      (∀ u pw, (login u pw s).2 = s) ∧
      (∀ u pw, (login_route u pw s).2 = s) ∧
      (∀ a b c d e f, (contact a b c d e f s).2 = s) ∧
      (∀ img, (post_image img s).2 = s) := by
  refine ⟨rfl, fun s => ⟨rfl, fun _ => rfl, fun _ _ => rfl, fun pid => ?_,
    fun pid => ?_, fun _ _ _ => rfl, fun _ _ => rfl, fun u pw => ?_,
    fun _ _ _ _ _ _ => rfl, fun _ => rfl⟩⟩
  · unfold show_person_by_id
    split <;> rfl
  · unfold person_detail_route show_person_by_id
    split
    · rfl
    · split <;> rfl
  · rcases u with _ | u <;> rcases pw with _ | pw <;> rfl

/-- C10: the login route places no length constraint on the form password:
for every supplied username of valid length and every supplied password
string — of length 1 included — login answers 200 with the fixed success
message; the 8-character minimum exists only on the Person body model. -/
theorem claim_C10 (username pw : String) (s : AppState)
    (h : username.length ≤ 20) :
    (login_route (some username) (some pw) s).1 =
      .success 200 { username := username, message := "Login Successful" } := by
  simp [login_route, login, LoginOut.construct, h]

/-- C10 witness: login evaluated at username Miguel2021 and the
one-character password x. -/
theorem claim_C10_witness :
    (login_route (some "Miguel2021") (some "x") initState).1 =
      .success 200 { username := "Miguel2021", message := "Login Successful" } :=
  claim_C10 "Miguel2021" "x" initState (by decide)

end FastAPIHelloWorld
